import Mathlib

/-!
Verification of the ESP32 BLE LED-control firmware
(`src/firmware/ESP32_BLE_Blink/src/main.cpp`).

The firmware is a single-file Arduino sketch: a BLE characteristic's
write handler interprets the payload as a command (`ON` / `OFF` /
`TOGGLE` / `STATUS`) controlling one LED; connection callbacks maintain
`deviceConnected`; the main `loop` re-starts advertising after a
disconnect.  We embed the observable state of the device and the three
handlers plus one loop iteration as pure Lean functions, then prove the
specified properties about them.
-/

namespace ESP32BLEBlink

/-- Observable state of the device.  `gpio` is the physical output level
of `LED_PIN` (`true` = HIGH, `false` = LOW).  `charValue` is the BLE
characteristic's stored value (a byte string).  `notifications` is the
list of notification payloads sent so far (oldest first); `log` is the
list of chunks emitted on the serial diagnostic stream. -/
structure DeviceState where
  ledState : Bool
  gpio : Bool
  deviceConnected : Bool
  oldDeviceConnected : Bool
  charValue : String
  notifications : List String
  log : List String
deriving Repr, DecidableEq

/-- `digitalWrite(LED_PIN, level)`: drive the output pin. -/
def digitalWrite (s : DeviceState) (level : Bool) : DeviceState :=
  { s with gpio := level }

/-- The serial chunks produced by the echo block of `onWrite`:
`Serial.println("Received: ")`, then one `Serial.print` per byte of the
payload, then `Serial.println()`. -/
def echoLog (rxValue : String) : List String :=
  "Received: " :: (rxValue.data.map fun c => String.mk [c]) ++ [""]

/-- `MyCallbacks::onWrite` (main.cpp lines 36–70).  `rxValue` is
`pCharacteristic->getValue()`, i.e. the characteristic's current value,
which the BLE stack set to the client's payload before invoking the
callback.  The branches mirror the C++ if/else-if chain. -/
def onWrite (s : DeviceState) : DeviceState :=
  let rxValue := s.charValue
  if rxValue.length > 0 then
    let s := { s with log := s.log ++ echoLog rxValue }
    if rxValue = "ON" then
      let s := digitalWrite s true
      { s with ledState := true, log := s.log ++ ["LED turned ON"] }
    else if rxValue = "OFF" then
      let s := digitalWrite s false
      { s with ledState := false, log := s.log ++ ["LED turned OFF"] }
    else if rxValue = "TOGGLE" then
      let s := { s with ledState := !s.ledState }
      let s := digitalWrite s (if s.ledState then true else false)
      { s with log := s.log ++ [if s.ledState then "LED toggled ON" else "LED toggled OFF"] }
    else if rxValue = "STATUS" then
      let status := if s.ledState then "LED_ON" else "LED_OFF"
      let s := { s with charValue := status }
      let s := { s with notifications := s.notifications ++ [s.charValue] }
      { s with log := s.log ++ ["Status sent: " ++ status] }
    else s
  else s

/-- A client write event: the BLE stack stores the payload into the
characteristic and then invokes `MyCallbacks::onWrite`. -/
def writeEvent (s : DeviceState) (payload : String) : DeviceState :=
  onWrite { s with charValue := payload }

/-- `MyServerCallbacks::onConnect` (main.cpp lines 24–27). -/
def onConnect (s : DeviceState) : DeviceState :=
  { s with deviceConnected := true, log := s.log ++ ["Device connected"] }

/-- `MyServerCallbacks::onDisconnect` (main.cpp lines 29–32). -/
def onDisconnect (s : DeviceState) : DeviceState :=
  { s with deviceConnected := false, log := s.log ++ ["Device disconnected"] }

/-- Device state at the end of `setup()` (main.cpp lines 73–110):
globals start `false`, the LED pin is driven LOW, the characteristic is
initialised to `"Hello World"`, and two startup lines are logged. -/
def setupState : DeviceState :=
  { ledState := false
    gpio := false
    deviceConnected := false
    oldDeviceConnected := false
    charValue := "Hello World"
    notifications := []
    log := ["Starting ESP32 BLE LED Control",
            "Waiting for a client connection to notify..."] }

/-- Result of one iteration of `loop()`: the new device state, the time
(in ms) at the end of the iteration, the timestamps at which
`pServer->startAdvertising()` was requested during the iteration, and
whether the `deviceConnected && !oldDeviceConnected` branch fired. -/
structure LoopIterResult where
  state : DeviceState
  time : Nat
  advRequests : List Nat
  connBranchTaken : Bool
deriving Repr, DecidableEq

/-- One iteration of `loop()` (main.cpp lines 112–127), entered at time
`t` (ms).  `reconnectDuringDelay` models the asynchronous BLE stack
delivering an `onConnect` callback while the iteration sits in the
`delay(500)` of the disconnect branch. -/
def loopIter (s : DeviceState) (t : Nat) (reconnectDuringDelay : Bool) :
    LoopIterResult :=
  if !s.deviceConnected && s.oldDeviceConnected then
    -- delay(500); the stack may deliver a connect event meanwhile
    let s1 := if reconnectDuringDelay then onConnect s else s
    let tAdv := t + 500
    -- pServer->startAdvertising(); Serial.println; oldDeviceConnected = deviceConnected
    let s2 := { s1 with log := s1.log ++ ["Start advertising"],
                        oldDeviceConnected := s1.deviceConnected }
    let cb := s2.deviceConnected && !s2.oldDeviceConnected
    let s3 := if cb then { s2 with oldDeviceConnected := s2.deviceConnected } else s2
    ⟨s3, tAdv + 10, [tAdv], cb⟩
  else
    let cb := s.deviceConnected && !s.oldDeviceConnected
    let s2 := if cb then { s with oldDeviceConnected := s.deviceConnected } else s
    ⟨s2, t + 10, [], cb⟩

/-- Run `n` iterations of `loop()` with no external events, collecting
all advertising-restart timestamps. -/
def loopRun (s : DeviceState) (t : Nat) : Nat → DeviceState × Nat × List Nat
  | 0 => (s, t, [])
  | n + 1 =>
    let r := loopIter s t false
    let rest := loopRun r.state r.time n
    (rest.1, rest.2.1, r.advRequests ++ rest.2.2)

/-- Command semantics as the specification words them: `ON → true`,
`OFF → false`, `TOGGLE →` negation. -/
def cmdSem (b : Bool) (c : String) : Bool :=
  if c = "ON" then true
  else if c = "OFF" then false
  else if c = "TOGGLE" then !b
  else b

/-- The data-model portion of the state: everything except the
diagnostic log stream. -/
def obsState (s : DeviceState) :
    Bool × Bool × Bool × Bool × String × List String :=
  (s.ledState, s.gpio, s.deviceConnected, s.oldDeviceConnected,
   s.charValue, s.notifications)

/-! ## Helper lemmas -/

lemma lenON : 0 < ("ON" : String).length := by decide

lemma lenOFF : 0 < ("OFF" : String).length := by decide

lemma lenTOGGLE : 0 < ("TOGGLE" : String).length := by decide

lemma lenSTATUS : 0 < ("STATUS" : String).length := by decide

/-- Every write event preserves agreement between the logical flag and
the pin level, whatever the payload. -/
lemma writeEvent_gpio_inv (s : DeviceState) (p : String)
    (h : s.gpio = s.ledState) :
    (writeEvent s p).gpio = (writeEvent s p).ledState := by
  simp only [writeEvent, onWrite, digitalWrite]
  split
  · split
    · simp
    · split
      · simp
      · split
        · simp
        · split
          · simpa using h
          · simpa using h
  · simpa using h

/-- On the three mutating commands, a write event computes exactly the
spec-side semantics `cmdSem`, both on the logical flag and on the pin. -/
lemma writeEvent_cmd (s : DeviceState) (c : String)
    (hc : c = "ON" ∨ c = "OFF" ∨ c = "TOGGLE") :
    (writeEvent s c).ledState = cmdSem s.ledState c ∧
    (writeEvent s c).gpio = cmdSem s.ledState c := by
  rcases hc with rfl | rfl | rfl <;>
    simp [writeEvent, onWrite, digitalWrite, cmdSem, lenON, lenOFF, lenTOGGLE]

/-- Folding a command sequence through the write handler computes the
fold of `cmdSem`, and keeps the pin level equal to the logical flag. -/
lemma led_fold (cmds : List String) :
    ∀ s : DeviceState, s.gpio = s.ledState →
      (∀ c ∈ cmds, c = "ON" ∨ c = "OFF" ∨ c = "TOGGLE") →
      (cmds.foldl writeEvent s).ledState = cmds.foldl cmdSem s.ledState ∧
      (cmds.foldl writeEvent s).gpio = (cmds.foldl writeEvent s).ledState := by
  induction cmds with
  | nil => exact fun s h _ => ⟨rfl, h⟩
  | cons c cs ih =>
    intro s h hall
    have hc := hall c (List.mem_cons_self c cs)
    have h1 := writeEvent_cmd s c hc
    have hinv : (writeEvent s c).gpio = (writeEvent s c).ledState := by
      rw [h1.1, h1.2]
    have hrest := ih (writeEvent s c) hinv
      (fun d hd => hall d (List.mem_cons_of_mem _ hd))
    simp only [List.foldl_cons]
    refine ⟨?_, hrest.2⟩
    rw [hrest.1, h1.1]

/-- A loop iteration with both connection flags `false` and no incoming
event does nothing except advance time by the 10 ms cadence. -/
lemma loopIter_synced (s : DeviceState) (t : Nat)
    (hdc : s.deviceConnected = false) (hodc : s.oldDeviceConnected = false) :
    loopIter s t false = ⟨s, t + 10, [], false⟩ := by
  simp [loopIter, hdc, hodc]

/-- Running the loop from a fully disconnected, synchronized state with
no events issues no advertising-restart request, ever. -/
lemma loopRun_no_requests (s : DeviceState) (t n : Nat)
    (hdc : s.deviceConnected = false) (hodc : s.oldDeviceConnected = false) :
    (loopRun s t n).2.2 = [] := by
  induction n generalizing s t with
  | zero => rfl
  | succ n ih =>
    simp only [loopRun, loopIter_synced s t hdc hodc]
    exact ih s (t + 10) hdc hodc

/-- A loop iteration that observes the disconnect transition with no
reconnect: one advertising request at `t + 500`, flags resynchronized. -/
lemma loopIter_disc (s : DeviceState) (t : Nat)
    (hdc : s.deviceConnected = false) (hodc : s.oldDeviceConnected = true) :
    loopIter s t false =
      ⟨{ s with log := s.log ++ ["Start advertising"],
                oldDeviceConnected := false },
       t + 500 + 10, [t + 500], false⟩ := by
  simp [loopIter, hdc, hodc]

/-! ## Claim theorems -/

/-- C1: for every sequence of `ON`/`OFF`/`TOGGLE` payloads delivered to
the write handler from the post-`setup` state, the resulting `ledState`
is the left fold of the sequence over `false` with the semantics
ON → true, OFF → false, TOGGLE → negation, and after each processed
command (i.e. after every prefix of the sequence) the physical GPIO
level equals `ledState`. -/
theorem C1_led_fold_gpio (cmds pre suf : List String)
    (hall : ∀ c ∈ cmds, c = "ON" ∨ c = "OFF" ∨ c = "TOGGLE")
    (hsplit : cmds = pre ++ suf) :
    (cmds.foldl writeEvent setupState).ledState = cmds.foldl cmdSem false ∧
    (pre.foldl writeEvent setupState).gpio =
      (pre.foldl writeEvent setupState).ledState := by
  have hpre : ∀ c ∈ pre, c = "ON" ∨ c = "OFF" ∨ c = "TOGGLE" :=
    fun c hc => hall c (hsplit ▸ List.mem_append_left suf hc)
  exact ⟨(led_fold cmds setupState rfl hall).1,
         (led_fold pre setupState rfl hpre).2⟩

/-- C1 witness: the theorem at the concrete sequence
`["ON", "TOGGLE", "OFF", "TOGGLE"]` split after two commands. -/
theorem C1_led_fold_gpio_witness :
    ((["ON", "TOGGLE", "OFF", "TOGGLE"] : List String).foldl writeEvent
        setupState).ledState =
      (["ON", "TOGGLE", "OFF", "TOGGLE"] : List String).foldl cmdSem false ∧
    ((["ON", "TOGGLE"] : List String).foldl writeEvent setupState).gpio =
      ((["ON", "TOGGLE"] : List String).foldl writeEvent
        setupState).ledState :=
  C1_led_fold_gpio ["ON", "TOGGLE", "OFF", "TOGGLE"] ["ON", "TOGGLE"]
    ["OFF", "TOGGLE"] (by decide) rfl

/-- C2: the invariant `gpio = ledState` holds in the initial state and
is preserved by every operation — any write event, both connection
callbacks, and any loop iteration (with or without an event during the
settle delay). -/
theorem C2_gpio_mirrors_ledState (s : DeviceState) (p : String) (t : Nat)
    (rc : Bool) (h : s.gpio = s.ledState) :
    setupState.gpio = setupState.ledState ∧
    (writeEvent s p).gpio = (writeEvent s p).ledState ∧
    (onConnect s).gpio = (onConnect s).ledState ∧
    (onDisconnect s).gpio = (onDisconnect s).ledState ∧
    ((loopIter s t rc).state).gpio = ((loopIter s t rc).state).ledState := by
  refine ⟨rfl, writeEvent_gpio_inv s p h, h, h, ?_⟩
  simp only [loopIter, onConnect]
  split <;> split <;> simp [h]

/-- C2 witness: the invariant theorem at the post-`setup` state with a
`TOGGLE` write and a loop iteration at time 0. -/
theorem C2_gpio_mirrors_ledState_witness :
    setupState.gpio = setupState.ledState ∧
    (writeEvent setupState "TOGGLE").gpio =
      (writeEvent setupState "TOGGLE").ledState ∧
    (onConnect setupState).gpio = (onConnect setupState).ledState ∧
    (onDisconnect setupState).gpio = (onDisconnect setupState).ledState ∧
    ((loopIter setupState 0 true).state).gpio =
      ((loopIter setupState 0 true).state).ledState :=
  C2_gpio_mirrors_ledState setupState "TOGGLE" 0 true rfl

/-- C3: a `STATUS` write leaves `ledState` and the GPIO level unchanged
and appends exactly one notification, whose payload is `"LED_ON"` when
`ledState` is true and `"LED_OFF"` when it is false. -/
theorem C3_status_pure_read (s : DeviceState) :
    (writeEvent s "STATUS").ledState = s.ledState ∧
    (writeEvent s "STATUS").gpio = s.gpio ∧
    (writeEvent s "STATUS").notifications =
      s.notifications ++ [if s.ledState then "LED_ON" else "LED_OFF"] := by
  simp [writeEvent, onWrite, lenSTATUS]

/-- C4: any non-empty payload that is not byte-for-byte equal to one of
the four recognized tokens leaves `ledState`, the GPIO level and the
notification stream unchanged. -/
theorem C4_unrecognized_noop (s : DeviceState) (p : String)
    (hne : 0 < p.length) (h1 : p ≠ "ON") (h2 : p ≠ "OFF")
    (h3 : p ≠ "TOGGLE") (h4 : p ≠ "STATUS") :
    (writeEvent s p).ledState = s.ledState ∧
    (writeEvent s p).gpio = s.gpio ∧
    (writeEvent s p).notifications = s.notifications := by
  simp [writeEvent, onWrite, hne, h1, h2, h3, h4]

/-- C4 witness: the lower-case variant `"on"` is not recognized and has
no effect on the LED or the notification stream. -/
theorem C4_unrecognized_noop_witness :
    0 < ("on" : String).length ∧
    (writeEvent setupState "on").ledState = setupState.ledState ∧
    (writeEvent setupState "on").gpio = setupState.gpio ∧
    (writeEvent setupState "on").notifications = setupState.notifications :=
  ⟨by decide, C4_unrecognized_noop setupState "on" (by decide) (by decide)
    (by decide) (by decide) (by decide)⟩

/-- C5: a zero-length payload is rejected by the length check before
any comparison or echo: `ledState`, the GPIO level, the notifications
and the serial log are all unchanged. -/
theorem C5_empty_ignored (s : DeviceState) (p : String)
    (h : p.length = 0) :
    (writeEvent s p).ledState = s.ledState ∧
    (writeEvent s p).gpio = s.gpio ∧
    (writeEvent s p).notifications = s.notifications ∧
    (writeEvent s p).log = s.log := by
  simp [writeEvent, onWrite, h]

/-- C5 witness: the theorem at the empty payload and the post-`setup`
state. -/
theorem C5_empty_ignored_witness :
    ("" : String).length = 0 ∧
    (writeEvent setupState "").ledState = setupState.ledState ∧
    (writeEvent setupState "").gpio = setupState.gpio ∧
    (writeEvent setupState "").notifications = setupState.notifications ∧
    (writeEvent setupState "").log = setupState.log :=
  ⟨rfl, C5_empty_ignored setupState "" rfl⟩

/-- C6: an iteration observing `deviceConnected = false` and
`oldDeviceConnected = true` issues its advertising-restart request at
`t + 500`, no earlier than 500 ms after observing the transition; and
when no reconnect occurs, a run of any further length issues exactly
that one request (iterations with synchronized flags issue none). -/
theorem C6_disconnect_readvertise (s : DeviceState) (t n : Nat)
    (hdc : s.deviceConnected = false) (hodc : s.oldDeviceConnected = true) :
    (loopIter s t false).advRequests = [t + 500] ∧
    (∀ ta ∈ (loopIter s t false).advRequests, t + 500 ≤ ta) ∧
    (loopRun s t (n + 1)).2.2 = [t + 500] := by
  have h1 := loopIter_disc s t hdc hodc
  refine ⟨by rw [h1], by rw [h1]; simp, ?_⟩
  simp only [loopRun, h1]
  rw [loopRun_no_requests
    { s with log := s.log ++ ["Start advertising"],
             oldDeviceConnected := false }
    (t + 500 + 10) n hdc rfl]
  simp

/-- C6 witness: the theorem at a concrete just-disconnected state, time
0, and three further iterations. -/
theorem C6_disconnect_readvertise_witness :
    ({ setupState with oldDeviceConnected := true } :
        DeviceState).deviceConnected = false ∧
    (loopRun { setupState with oldDeviceConnected := true } 0
        (3 + 1)).2.2 = [0 + 500] :=
  ⟨rfl, (C6_disconnect_readvertise
    { setupState with oldDeviceConnected := true } 0 3 rfl rfl).2.2⟩

/-- C7: after `setup` the characteristic stores `"Hello World"`; a
`STATUS` write stores the status string into the characteristic and the
notification sent carries exactly that stored value, so afterwards the
stored value is the last status string, never `"Hello World"`. -/
theorem C7_char_value (s : DeviceState) :
    setupState.charValue = "Hello World" ∧
    (writeEvent s "STATUS").charValue =
      (if s.ledState then "LED_ON" else "LED_OFF") ∧
    (writeEvent s "STATUS").notifications =
      s.notifications ++ [(writeEvent s "STATUS").charValue] ∧
    (writeEvent s "STATUS").charValue ≠ "Hello World" := by
  refine ⟨rfl, ?_, ?_, ?_⟩
  · simp [writeEvent, onWrite, lenSTATUS]
  · simp [writeEvent, onWrite, lenSTATUS]
  · cases hl : s.ledState <;> simp [writeEvent, onWrite, lenSTATUS, hl]

/-- C8: `onConnect` sets `deviceConnected` to true and `onDisconnect`
sets it to false, whatever its prior value; neither touches any other
data-model field; and on the data-model state (everything but the
diagnostic log) each handler is idempotent. -/
theorem C8_conn_handlers (s : DeviceState) :
    (onConnect s).deviceConnected = true ∧
    (onDisconnect s).deviceConnected = false ∧
    (onConnect s).ledState = s.ledState ∧
    (onConnect s).gpio = s.gpio ∧
    (onConnect s).oldDeviceConnected = s.oldDeviceConnected ∧
    (onConnect s).charValue = s.charValue ∧
    (onConnect s).notifications = s.notifications ∧
    (onDisconnect s).ledState = s.ledState ∧
    (onDisconnect s).gpio = s.gpio ∧
    (onDisconnect s).oldDeviceConnected = s.oldDeviceConnected ∧
    (onDisconnect s).charValue = s.charValue ∧
    (onDisconnect s).notifications = s.notifications ∧
    obsState (onConnect (onConnect s)) = obsState (onConnect s) ∧
    obsState (onDisconnect (onDisconnect s)) = obsState (onDisconnect s) := by
  simp [onConnect, onDisconnect, obsState]

/-- C9 counterexample: the claim says an unrecognized non-empty payload
leaves the diagnostic log stream unchanged, but the handler echoes every
non-empty payload before matching it: `"FOO"` changes the log. -/
theorem C9_echo_logged :
    (writeEvent setupState "FOO").log ≠ setupState.log := by decide

/-- C9 (amended): an unrecognized non-empty payload produces no error
or action log — the only log output is the unconditional byte-by-byte
echo of the received payload — and it leaves `ledState`, the GPIO level
and the notification stream unchanged. -/
theorem C9_amended_echo_only (s : DeviceState) (p : String)
    (hne : 0 < p.length) (h1 : p ≠ "ON") (h2 : p ≠ "OFF")
    (h3 : p ≠ "TOGGLE") (h4 : p ≠ "STATUS") :
    (writeEvent s p).log = s.log ++ echoLog p ∧
    (writeEvent s p).ledState = s.ledState ∧
    (writeEvent s p).gpio = s.gpio ∧
    (writeEvent s p).notifications = s.notifications := by
  simp [writeEvent, onWrite, hne, h1, h2, h3, h4]

/-- C9 witness: the amended theorem at payload `"FOO"` from the
post-`setup` state. -/
theorem C9_amended_echo_only_witness :
    0 < ("FOO" : String).length ∧
    (writeEvent setupState "FOO").log = setupState.log ++ echoLog "FOO" ∧
    (writeEvent setupState "FOO").ledState = setupState.ledState ∧
    (writeEvent setupState "FOO").gpio = setupState.gpio ∧
    (writeEvent setupState "FOO").notifications =
      setupState.notifications :=
  ⟨by decide, C9_amended_echo_only setupState "FOO" (by decide) (by decide)
    (by decide) (by decide) (by decide)⟩

/-- C10: in a disconnect-branch iteration, `oldDeviceConnected` is
assigned the value of `deviceConnected` as re-read after the 500 ms
delay; if a client reconnects during the delay, both flags end the
iteration `true`, the connect branch does not fire in that iteration,
and a subsequent iteration changes nothing and fires no branch — so the
Disconnected-to-Connected branch is never taken for that reconnection. -/
theorem C10_reconnect_swallowed (s : DeviceState) (t t2 : Nat)
    (hdc : s.deviceConnected = false) (hodc : s.oldDeviceConnected = true) :
    (loopIter s t true).state.oldDeviceConnected = true ∧
    (loopIter s t true).state.deviceConnected = true ∧
    (loopIter s t true).connBranchTaken = false ∧
    (loopIter (loopIter s t true).state t2 false).connBranchTaken = false ∧
    (loopIter (loopIter s t true).state t2 false).state =
      (loopIter s t true).state ∧
    (loopIter (loopIter s t true).state t2 false).advRequests = [] := by
  have h1 : loopIter s t true =
      ⟨{ s with deviceConnected := true,
                log := (s.log ++ ["Device connected"]) ++
                  ["Start advertising"],
                oldDeviceConnected := true },
       t + 500 + 10, [t + 500], false⟩ := by
    simp [loopIter, onConnect, hdc, hodc]
  rw [h1]
  refine ⟨rfl, rfl, rfl, ?_, ?_, ?_⟩ <;> simp [loopIter]

/-- C10 witness: the theorem at a concrete just-disconnected state with
a reconnect during the settle delay. -/
theorem C10_reconnect_swallowed_witness :
    (loopIter { setupState with oldDeviceConnected := true } 0
        true).state.oldDeviceConnected = true ∧
    (loopIter (loopIter { setupState with oldDeviceConnected := true } 0
        true).state 1000 false).advRequests = [] :=
  ⟨(C10_reconnect_swallowed { setupState with oldDeviceConnected := true }
      0 1000 rfl rfl).1,
   (C10_reconnect_swallowed { setupState with oldDeviceConnected := true }
      0 1000 rfl rfl).2.2.2.2.2⟩

end ESP32BLEBlink
